import Mathlib

/-!
Verification development for the `recipe_normalizer` repository.

The embedding models:
* `converters/units.py` — `UnitConverter`: unit-name normalization, a finite
  unit registry with physical dimensions and conversion factors (pint is
  modelled by this registry, with the metric-cup override `cup = 240 ml`),
  `convert`, `_convert_volume`, `_convert_weight`, `_format_output_unit`,
  and `round_quantity` (Python `round` is round-half-to-even).
* `models.py` — `Ingredient` and `Recipe` records (Python int/float values
  are modelled as `PyNum`, exact rationals tagged int or float).
* `services/normalizer.py` — `RecipeNormalizer`: per-ingredient and
  per-recipe normalization, directory batch processing with `skip_errors`,
  the empty-result check, and the reverse-alphabetical stable sort.

Real arithmetic is modelled with `ℚ` (exact arithmetic); strings with
`String`. File-system iteration is abstracted: `normalizeDirectory` takes
the list of eligible files, each paired with the outcome of parsing it.
-/

namespace RecipeNormalizer

/-- Python numbers: an `int` or a `float`, values modelled as exact `ℚ`. -/
inductive PyNum where
  | int (n : ℤ)
  | float (q : ℚ)
deriving DecidableEq, Repr

/-- The numeric value of a Python number. -/
def PyNum.toRat : PyNum → ℚ
  | .int n => (n : ℚ)
  | .float q => q

/-- `ConversionResult` from `converters/units.py`: a (quantity, unit) pair. -/
structure ConversionResult where
  quantity : ℚ
  unit : String
deriving DecidableEq, Repr

/-- Physical dimension of a unit, as pint's dimensionality check sees it:
volume (`[length]^3`), weight (`[mass]`), or anything else. -/
inductive Dimension where
  | volume
  | weight
  | other
deriving DecidableEq, Repr

/-- A registry entry: the unit's dimension and its exact conversion factor to
the canonical small unit of that dimension (milliliter for volume, gram for
weight; for `other` the factor is unused by `convert`). -/
structure UnitDef where
  dim : Dimension
  factor : ℚ
deriving DecidableEq, Repr

/-- Drop leading whitespace characters from a character list. -/
def dropLeadingWs : List Char → List Char
  | [] => []
  | c :: cs => if c.isWhitespace then dropLeadingWs cs else c :: cs

/-- Python's `str.strip()`: remove leading and trailing whitespace. -/
def pyStrip (s : String) : String :=
  ⟨(dropLeadingWs (dropLeadingWs s.data).reverse).reverse⟩

/-- Python's `str.lower()`: lowercase every character. -/
def pyLower (s : String) : String :=
  ⟨s.data.map Char.toLower⟩

/-- `UnitConverter.UNIT_ALIASES` from `converters/units.py`. -/
def UNIT_ALIASES : List (String × String) :=
  [("fl. oz.", "floz"), ("fl oz", "floz"), ("gr", "gram")]

/-- `UnitConverter._normalize_unit_name`: lowercase, strip, then apply the
alias table (defaulting to the normalized name itself). -/
def normalizeUnitName (unit : String) : String :=
  let normalized := pyStrip (pyLower unit)
  (UNIT_ALIASES.lookup normalized).getD normalized

/-- The pint unit registry as `UnitConverter.__init__` configures it:
US customary cooking units with the metric-cup override
`cup = 240 * milliliter` (from `_define_cooking_units`; the default
US cup of 236.588 ml is replaced). Factors are exact rationals taken
from pint's US-customary definitions. Entries with dimension `other`
stand for pint units whose dimensionality is neither volume nor mass. -/
def unitRegistry : List (String × UnitDef) :=
  [ ("milliliter", ⟨.volume, 1⟩),
    ("ml", ⟨.volume, 1⟩),
    ("liter", ⟨.volume, 1000⟩),
    ("l", ⟨.volume, 1000⟩),
    ("cup", ⟨.volume, 240⟩),
    ("cups", ⟨.volume, 240⟩),
    ("floz", ⟨.volume, 295735295625 / 10000000000⟩),
    ("tablespoon", ⟨.volume, 1478676478125 / 100000000000⟩),
    ("teaspoon", ⟨.volume, 492892159375 / 100000000000⟩),
    ("pint", ⟨.volume, 473176473 / 1000000⟩),
    ("quart", ⟨.volume, 946352946 / 1000000⟩),
    ("gallon", ⟨.volume, 3785411784 / 1000000⟩),
    ("gram", ⟨.weight, 1⟩),
    ("g", ⟨.weight, 1⟩),
    ("kilogram", ⟨.weight, 1000⟩),
    ("kg", ⟨.weight, 1000⟩),
    ("pound", ⟨.weight, 45359237 / 100000⟩),
    ("lb", ⟨.weight, 45359237 / 100000⟩),
    ("ounce", ⟨.weight, 28349523125 / 1000000000⟩),
    ("oz", ⟨.weight, 28349523125 / 1000000000⟩),
    ("second", ⟨.other, 1⟩),
    ("meter", ⟨.other, 1⟩),
    ("kelvin", ⟨.other, 1⟩) ]

/-- Resolution of a normalized unit name against the registry; `none` models
pint raising `UndefinedUnitError`. -/
def resolveUnit (s : String) : Option UnitDef :=
  unitRegistry.lookup s

/-- `UnitConverter._format_output_unit`. -/
def formatOutputUnit (unit : String) : String :=
  (([("milliliter", "ml"), ("liter", "liter"), ("gram", "gr")]
      : List (String × String)).lookup unit).getD unit

/-- `UnitConverter._convert_volume` for a source quantity `q` in a unit with
factor `f` milliliters: convert to milliliter; if the magnitude reaches the
1000 threshold, re-convert the original source quantity to liter. -/
def convertVolume (q f : ℚ) : ConversionResult :=
  let convertedMl := q * f
  if 1000 ≤ convertedMl then
    { quantity := q * (f / 1000), unit := formatOutputUnit "liter" }
  else
    { quantity := convertedMl, unit := formatOutputUnit "milliliter" }

/-- `UnitConverter._convert_weight` for a source quantity `q` in a unit with
factor `f` grams. -/
def convertWeight (q f : ℚ) : ConversionResult :=
  { quantity := q * f, unit := formatOutputUnit "gram" }

/-- `UnitConverter.convert`: `None` or whitespace-only unit passes the
quantity through with an empty unit; otherwise the unit name is normalized
and resolved, volume and weight dimensions are converted, and any other
dimension or an undefined unit degrades to pass-through of the original
quantity and original (non-normalized) unit string. -/
def convert (quantity : ℚ) (unit : Option String) : ConversionResult :=
  match unit with
  | none => { quantity := quantity, unit := "" }
  | some u =>
    if pyStrip u = "" then { quantity := quantity, unit := "" }
    else
      match resolveUnit (normalizeUnitName u) with
      | some ⟨.volume, f⟩ => convertVolume quantity f
      | some ⟨.weight, f⟩ => convertWeight quantity f
      | some ⟨.other, _⟩ => { quantity := quantity, unit := u }
      | none => { quantity := quantity, unit := u }

/-- Python's built-in `round` on an exact value: round to the nearest
integer, with exact halves resolved to the even neighbor. -/
def pythonRound (q : ℚ) : ℤ :=
  if q - ⌊q⌋ = 1 / 2 then
    if ⌊q⌋ % 2 = 0 then ⌊q⌋ else ⌊q⌋ + 1
  else
    round q

/-- `UnitConverter.round_quantity`: quantities ≥ 10 are rounded to the
nearest integer with Python's `round`; smaller quantities are truncated
(`math.floor(q * 100) / 100`) to two decimals, returned as a Python `int`
when the truncation lands on a whole number. -/
def roundQuantity (q : ℚ) : PyNum :=
  if 10 ≤ q then
    .int (pythonRound q)
  else
    let truncated : ℚ := (⌊q * 100⌋ : ℚ) / 100
    if truncated.den = 1 then .int truncated.num else .float truncated

/-- `Ingredient` from `models.py` (validation is done by the parsers;
fields as stored on the model). -/
structure Ingredient where
  item : String
  quantity : Option PyNum := none
  unit : Option String := none
  comment : Option String := none
deriving DecidableEq, Repr

/-- `Recipe` from `models.py`. -/
structure Recipe where
  name : String
  ingredients : List Ingredient := []
  preparations : List String := []
deriving DecidableEq, Repr

/-- `RecipeNormalizer._normalize_ingredient`: an ingredient without a
quantity is returned as is; otherwise the quantity and unit are converted,
the converted quantity is rounded, and a new `Ingredient` is built, with an
empty converted unit stored as `none`. -/
def normalizeIngredient (ingredient : Ingredient) : Ingredient :=
  match ingredient.quantity with
  | none => ingredient
  | some q =>
    let result := convert q.toRat ingredient.unit
    let rounded := roundQuantity result.quantity
    { item := ingredient.item
      quantity := some rounded
      unit := if result.unit = "" then none else some result.unit
      comment := ingredient.comment }

/-- `RecipeNormalizer._normalize_recipe`: rebuild the recipe with every
ingredient normalized, in the same order. -/
def normalizeRecipe (recipe : Recipe) : Recipe :=
  { name := recipe.name
    ingredients := recipe.ingredients.map normalizeIngredient
    preparations := recipe.preparations }

/-- `RecipeNormalizer._sort_recipes`:
`sorted(recipes, key=lambda r: r.name.lower(), reverse=True)` — a stable
sort, descending on the lowercased name. -/
def sortRecipes (recipes : List Recipe) : List Recipe :=
  recipes.mergeSort fun a b => decide (pyLower b.name ≤ pyLower a.name)

/-- The outcome of parsing one eligible file, abstracting
`ParserRegistry.parse`: a parsed `Recipe`, a normalization-domain error
(`RecipeNormalizerError`), or a non-domain error (any other exception). -/
inductive FileOutcome where
  | parsed (r : Recipe)
  | domainError (msg : String)
  | fatalError (msg : String)
deriving DecidableEq, Repr

/-- How a batch run fails, mirroring the exceptions escaping
`RecipeNormalizer.normalize_directory`: a propagated domain error, a
propagated non-domain error, or `EmptyDirectoryError` (the spec's
`EmptyResult`). -/
inductive BatchError where
  | domain (msg : String)
  | fatal (msg : String)
  | emptyResult (dir : String)
deriving DecidableEq, Repr

/-- The per-file loop of `RecipeNormalizer.normalize_directory` (lines
56-67): walk the eligible files in order accumulating normalized recipes
and, under `skip_errors`, the recorded `(file, cause)` pairs; a domain
error aborts unless `skipErrors`, a non-domain error always aborts. -/
def processFiles :
    List (String × FileOutcome) → Bool →
    Except BatchError (List Recipe × List (String × String))
  | [], _ => .ok ([], [])
  | (path, outcome) :: rest, skipErrors =>
    match outcome with
    | .parsed r =>
      (processFiles rest skipErrors).map fun (rs, es) =>
        (normalizeRecipe r :: rs, es)
    | .domainError msg =>
      if skipErrors then
        (processFiles rest skipErrors).map fun (rs, es) =>
          (rs, (path, msg) :: es)
      else
        .error (.domain msg)
    | .fatalError msg => .error (.fatal msg)

/-- `RecipeNormalizer.normalize_directory`, with directory iteration
abstracted to the list of eligible files (files whose suffix is supported)
paired with their parse outcomes: process every file, fail with
`EmptyDirectoryError` if no recipe was produced, otherwise return the
recipes sorted reverse-alphabetically. -/
def normalizeDirectory (dir : String) (files : List (String × FileOutcome))
    (skipErrors : Bool) : Except BatchError (List Recipe) :=
  match processFiles files skipErrors with
  | .error e => .error e
  | .ok (recipes, _errors) =>
    if recipes.isEmpty then .error (.emptyResult dir)
    else .ok (sortRecipes recipes)

/-- The recipes of the files that parsed successfully, normalized, in
encounter order. -/
def successes (files : List (String × FileOutcome)) : List Recipe :=
  files.filterMap fun x =>
    match x.2 with
    | .parsed r => some (normalizeRecipe r)
    | _ => none

/-- The `(file, cause)` pairs of the files that failed with a
normalization-domain error, in encounter order. -/
def domainFailures (files : List (String × FileOutcome)) :
    List (String × String) :=
  files.filterMap fun x =>
    match x.2 with
    | .domainError msg => some (x.1, msg)
    | _ => none

/-! ## Helper lemmas -/

lemma formatMl : formatOutputUnit "milliliter" = "ml" := rfl

lemma formatLiter : formatOutputUnit "liter" = "liter" := rfl

lemma pythonRound_dist (q : ℚ) : |q - (pythonRound q : ℚ)| ≤ 1 / 2 := by
  unfold pythonRound
  split
  case isTrue h =>
    split
    · rw [h, abs_of_nonneg (by norm_num : (0:ℚ) ≤ 1/2)]
    · rw [abs_le]; push_cast; constructor <;> linarith
  case isFalse h => exact abs_sub_round q

lemma pythonRound_tie_even (q : ℚ) (h : q - (⌊q⌋ : ℚ) = 1 / 2) :
    Even (pythonRound q) := by
  unfold pythonRound
  rw [if_pos h]
  split
  case isTrue h2 => exact Int.even_iff.mpr h2
  case isFalse h2 => exact Int.even_add_one.mpr fun he => h2 (Int.even_iff.mp he)

lemma toRat_truncPick (t : ℚ) :
    (if t.den = 1 then PyNum.int t.num else PyNum.float t).toRat = t := by
  split
  case isTrue hden =>
    show ((t.num : ℚ)) = t
    exact (Rat.den_eq_one_iff t).mp hden
  case isFalse hden => rfl

lemma roundQuantity_toRat_lt10 (q : ℚ) (h : ¬ 10 ≤ q) :
    (roundQuantity q).toRat = (⌊q * 100⌋ : ℚ) / 100 := by
  simp only [roundQuantity, if_neg h]
  exact toRat_truncPick _

/-- The boolean comparator used by `sortRecipes`. -/
def recipeDescLe (a b : Recipe) : Bool :=
  decide (pyLower b.name ≤ pyLower a.name)

lemma recipeDescLe_trans : ∀ a b c : Recipe,
    recipeDescLe a b → recipeDescLe b c → recipeDescLe a c := by
  intro a b c hab hbc
  exact decide_eq_true
    (le_trans (of_decide_eq_true hbc) (of_decide_eq_true hab))

lemma recipeDescLe_total : ∀ a b : Recipe,
    recipeDescLe a b || recipeDescLe b a := by
  intro a b
  rcases le_total (pyLower b.name) (pyLower a.name) with h | h
  · exact Bool.or_eq_true _ _ |>.mpr (Or.inl (decide_eq_true h))
  · exact Bool.or_eq_true _ _ |>.mpr (Or.inr (decide_eq_true h))

lemma processFiles_failfast (path msg : String)
    (rest : List (String × FileOutcome)) :
    ∀ pre : List (String × FileOutcome),
    (∀ x ∈ pre, ∃ r, x.2 = FileOutcome.parsed r) →
    processFiles (pre ++ (path, .domainError msg) :: rest) false =
      .error (.domain msg)
  | [], _ => rfl
  | (p, o) :: pre, h => by
    obtain ⟨r, hr⟩ := h (p, o) (List.mem_cons_self _ _)
    have ih := processFiles_failfast path msg rest pre
      fun x hx => h x (List.mem_cons_of_mem _ hx)
    simp only at hr
    subst hr
    simp only [List.cons_append, processFiles, List.append_eq, ih, Except.map]

lemma processFiles_skip (files : List (String × FileOutcome))
    (h : ∀ x ∈ files, ∀ m, x.2 ≠ FileOutcome.fatalError m) :
    processFiles files true = .ok (successes files, domainFailures files) := by
  induction files with
  | nil => rfl
  | cons x rest ih =>
    obtain ⟨p, o⟩ := x
    have ihr := ih fun y hy => h y (List.mem_cons_of_mem _ hy)
    cases o with
    | parsed r =>
      simp [processFiles, ihr, Except.map, successes, domainFailures]
    | domainError m =>
      simp [processFiles, ihr, Except.map, successes, domainFailures]
    | fatalError m =>
      exact absurd rfl (h (p, .fatalError m) (List.mem_cons_self _ _) m)

lemma processFiles_fatal (path msg : String)
    (rest : List (String × FileOutcome)) (skip : Bool) :
    ∀ pre : List (String × FileOutcome),
    (∀ x ∈ pre, ∃ r, x.2 = FileOutcome.parsed r) →
    processFiles (pre ++ (path, .fatalError msg) :: rest) skip =
      .error (.fatal msg)
  | [], _ => rfl
  | (p, o) :: pre, h => by
    obtain ⟨r, hr⟩ := h (p, o) (List.mem_cons_self _ _)
    have ih := processFiles_fatal path msg rest skip pre
      fun x hx => h x (List.mem_cons_of_mem _ hx)
    simp only at hr
    subst hr
    simp only [List.cons_append, processFiles, List.append_eq, ih, Except.map]

/-! ## Claim theorems -/

/-- C1: for every volume unit `u` with known conversion factor `f` to
milliliter and every quantity `q`, `convert(q, u)` returns `q * f` with
unit `"ml"` when `q * f < 1000`, and at or above the inclusive 1000
threshold it returns the original source quantity converted directly to
liter (`q * (f / 1000)`, not the milliliter value divided) with unit
`"liter"`. -/
theorem convert_volume_threshold (u : String) (f q : ℚ)
    (hu : pyStrip u ≠ "")
    (hres : resolveUnit (normalizeUnitName u) = some ⟨Dimension.volume, f⟩) :
    convert q (some u) =
      if q * f < 1000 then { quantity := q * f, unit := "ml" }
      else { quantity := q * (f / 1000), unit := "liter" } := by
  simp only [convert]
  rw [if_neg hu, hres]
  simp only [convertVolume]
  rcases lt_or_le (q * f) 1000 with h | h
  · rw [if_pos h, if_neg (not_le.mpr h), formatMl]
  · rw [if_neg (not_lt.mpr h), if_pos h, formatLiter]

/-- Witness for C1: `"cup"` resolves as a volume unit with factor 240 and
`convert(1, "cup") = (240, "ml")`. -/
theorem convert_volume_threshold_witness :
    pyStrip "cup" ≠ "" ∧
    resolveUnit (normalizeUnitName "cup") = some ⟨Dimension.volume, 240⟩ ∧
    convert 1 (some "cup") = { quantity := 240, unit := "ml" } := by
  refine ⟨by decide, by decide, ?_⟩
  rw [convert_volume_threshold "cup" 240 1 (by decide) (by decide)]
  norm_num

/-- C2 (amended): `round_quantity(q)` for `q ≥ 10` returns an integer at
distance at most 1/2 from `q`, resolving exact halves by rounding half to
even (Python's `round`), not half away from zero; for `q < 10` it returns
`q` truncated (never rounded up) to a multiple of 1/100 less than 1/100
away, tagged as an integer exactly when the truncation is whole; with
`round_quantity(3.78541) = 3.78`, `round_quantity(5.0) = 5` as an integer,
and `round_quantity(2.5) = 2.5`. -/
theorem round_quantity_spec :
    (∀ q : ℚ,
      (10 ≤ q → ∃ n : ℤ, roundQuantity q = PyNum.int n ∧
        |q - (n : ℚ)| ≤ 1 / 2 ∧ (q - (⌊q⌋ : ℚ) = 1 / 2 → Even n)) ∧
      (¬ 10 ≤ q →
        (roundQuantity q).toRat ≤ q ∧
        q - (roundQuantity q).toRat < 1 / 100 ∧
        (∃ k : ℤ, (roundQuantity q).toRat = (k : ℚ) / 100) ∧
        ((roundQuantity q).toRat.den = 1 ↔
          ∃ n : ℤ, roundQuantity q = PyNum.int n))) ∧
    roundQuantity (378541 / 100000) = PyNum.float (189 / 50) ∧
    roundQuantity 5 = PyNum.int 5 ∧
    roundQuantity (5 / 2) = PyNum.float (5 / 2) := by
  refine ⟨?_, ?_, ?_, ?_⟩
  · intro q
    constructor
    · intro h
      refine ⟨pythonRound q, ?_, pythonRound_dist q, pythonRound_tie_even q⟩
      simp only [roundQuantity, if_pos h]
    · intro h
      have htr := roundQuantity_toRat_lt10 q h
      have h1 : ((⌊q * 100⌋ : ℚ)) ≤ q * 100 := Int.floor_le _
      have h2 : q * 100 < (⌊q * 100⌋ : ℚ) + 1 := Int.lt_floor_add_one _
      refine ⟨by rw [htr]; linarith, by rw [htr]; linarith,
        ⟨⌊q * 100⌋, htr⟩, ?_⟩
      simp only [roundQuantity, if_neg h]
      split
      case isTrue hden =>
        exact iff_of_true (by simp [PyNum.toRat]) ⟨_, rfl⟩
      case isFalse hden =>
        refine iff_of_false ?_ ?_
        · simpa [PyNum.toRat] using hden
        · rintro ⟨n, hn⟩
          cases hn
  · norm_num [roundQuantity, pythonRound]
  · norm_num [roundQuantity, pythonRound]
  · norm_num [roundQuantity, pythonRound]

/-- Counterexample to C2 as stated: at the exact half 10.5 the code
returns 10 (Python's `round` is round-half-to-even), not the 11 that
round-half-away-from-zero would give. -/
theorem round_quantity_half_counterexample :
    roundQuantity (21 / 2) = PyNum.int 10 ∧
    roundQuantity (21 / 2) ≠ PyNum.int 11 := by
  constructor
  · norm_num [roundQuantity, pythonRound]
  · norm_num [roundQuantity, pythonRound]

/-- Witness for C2: the amended theorem applied at `q = 12` and
`q = 3.5`. -/
theorem round_quantity_spec_witness :
    (∃ n : ℤ, roundQuantity 12 = PyNum.int n ∧
      |(12 : ℚ) - (n : ℚ)| ≤ 1 / 2 ∧
      ((12 : ℚ) - (⌊(12 : ℚ)⌋ : ℚ) = 1 / 2 → Even n)) ∧
    (roundQuantity (7 / 2)).toRat ≤ 7 / 2 :=
  ⟨(round_quantity_spec.1 12).1 (by norm_num),
   ((round_quantity_spec.1 (7 / 2)).2 (by norm_num)).1⟩

/-- C3: `"cup"` carries the metric-cup factor 240 (not the US customary
236.588), and `convert(q, "cup")` is `q * 240` with the volume threshold
applied to the 240-based value. -/
theorem convert_cup_metric (q : ℚ) :
    resolveUnit (normalizeUnitName "cup") = some ⟨Dimension.volume, 240⟩ ∧
    (240 : ℚ) ≠ 236588 / 1000 ∧
    convert q (some "cup") =
      (if q * 240 < 1000 then { quantity := q * 240, unit := "ml" }
       else { quantity := q * (240 / 1000), unit := "liter" }) := by
  refine ⟨by decide, by norm_num, ?_⟩
  exact convert_volume_threshold "cup" 240 q (by decide) (by decide)

/-- C4: `convert` passes through at its edges: a `None` or all-whitespace
unit yields the quantity with an empty unit string, and a unit that fails
to resolve yields the original quantity and the original unit string
unchanged (case-preserving), e.g. `"pinch"`. -/
theorem convert_passthrough (q : ℚ) :
    convert q none = { quantity := q, unit := "" } ∧
    (∀ u : String, pyStrip u = "" →
      convert q (some u) = { quantity := q, unit := "" }) ∧
    (∀ u : String, pyStrip u ≠ "" →
      resolveUnit (normalizeUnitName u) = none →
      convert q (some u) = { quantity := q, unit := u }) ∧
    convert q (some "pinch") = { quantity := q, unit := "pinch" } := by
  refine ⟨rfl, ?_, ?_, ?_⟩
  · intro u hu
    simp only [convert]
    rw [if_pos hu]
  · intro u hu hres
    simp only [convert]
    rw [if_neg hu, hres]
  · simp only [convert]
    rw [if_neg (by decide : pyStrip "pinch" ≠ ""),
      (by decide : resolveUnit (normalizeUnitName "pinch") = none)]

/-- Witness for C4: an all-whitespace unit and the unknown token
`"Pinch"` (case preserved). -/
theorem convert_passthrough_witness :
    convert 7 (some "   ") = { quantity := 7, unit := "" } ∧
    convert 7 (some "Pinch") = { quantity := 7, unit := "Pinch" } :=
  ⟨(convert_passthrough 7).2.1 "   " (by decide),
   (convert_passthrough 7).2.2.1 "Pinch" (by decide) (by decide)⟩

/-- C5: `convert` never fails — it is a total function; for a token that
resolves to a dimension other than volume or mass, and for a token that
does not resolve at all, it degrades to pass-through of the original
quantity and unit. -/
theorem convert_total_degrade (q : ℚ) (u : String) (hu : pyStrip u ≠ "") :
    (∀ f, resolveUnit (normalizeUnitName u) = some ⟨Dimension.other, f⟩ →
      convert q (some u) = { quantity := q, unit := u }) ∧
    (resolveUnit (normalizeUnitName u) = none →
      convert q (some u) = { quantity := q, unit := u }) := by
  constructor
  · intro f hres
    simp only [convert]
    rw [if_neg hu, hres]
  · intro hres
    simp only [convert]
    rw [if_neg hu, hres]

/-- Witness for C5: `"second"` resolves to a non-volume, non-mass
dimension, `"sprigs"` does not resolve; both pass through. -/
theorem convert_total_degrade_witness :
    convert 3 (some "second") = { quantity := 3, unit := "second" } ∧
    convert 3 (some "sprigs") = { quantity := 3, unit := "sprigs" } :=
  ⟨(convert_total_degrade 3 "second" (by decide)).1 1 (by decide),
   (convert_total_degrade 3 "sprigs" (by decide)).2 (by decide)⟩

/-- C6: `sortRecipes` returns a permutation of its input sorted by
case-insensitive name in descending lexicographic order, and recipes with
identical case-insensitive names keep their encounter order (stable
sort). -/
theorem sort_recipes_spec (l : List Recipe) :
    (sortRecipes l).Perm l ∧
    (sortRecipes l).Pairwise
      (fun a b => pyLower b.name ≤ pyLower a.name) ∧
    (∀ a b : Recipe, pyLower a.name = pyLower b.name →
      List.Sublist [a, b] l → List.Sublist [a, b] (sortRecipes l)) := by
  refine ⟨List.mergeSort_perm l _, ?_, ?_⟩
  · exact (List.sorted_mergeSort recipeDescLe_trans recipeDescLe_total l).imp
      fun h => of_decide_eq_true h
  · intro a b hk hsub
    exact List.pair_sublist_mergeSort recipeDescLe_trans recipeDescLe_total
      (decide_eq_true (le_of_eq hk.symm)) hsub

/-- Witness for C6: two recipes whose names differ only by case keep
their encounter order after sorting. -/
theorem sort_recipes_spec_witness :
    List.Sublist [({ name := "Apple" } : Recipe), { name := "APPLE" }]
      (sortRecipes [{ name := "Zebra" }, { name := "Apple" },
        { name := "APPLE" }]) :=
  (sort_recipes_spec _).2.2 _ _ (by decide)
    (List.Sublist.cons _ (List.Sublist.refl _))

/-- C7: a run that produces zero successfully normalized recipes — no
eligible files, or every per-file failure absorbed — fails with the
empty-result error (`EmptyDirectoryError`), regardless of
`skip_errors`. -/
theorem empty_result_fatal :
    (∀ (dir : String) (skip : Bool),
      normalizeDirectory dir [] skip = .error (.emptyResult dir)) ∧
    (∀ (dir : String) (files : List (String × FileOutcome)) (skip : Bool)
      (errs : List (String × String)),
      processFiles files skip = .ok ([], errs) →
      normalizeDirectory dir files skip = .error (.emptyResult dir)) := by
  constructor
  · intro dir skip
    rfl
  · intro dir files skip errs h
    simp only [normalizeDirectory, h, List.isEmpty_nil, if_pos]

/-- Witness for C7: an empty directory, and a directory whose only file
fails under `skip_errors = true`, both end in the empty-result error. -/
theorem empty_result_fatal_witness :
    normalizeDirectory "recipes" [] false = .error (.emptyResult "recipes") ∧
    normalizeDirectory "recipes" [("a.yaml", .domainError "bad yaml")] true =
      .error (.emptyResult "recipes") :=
  ⟨empty_result_fatal.1 "recipes" false,
   empty_result_fatal.2 "recipes" [("a.yaml", .domainError "bad yaml")] true
     [("a.yaml", "bad yaml")] rfl⟩

/-- C8: with `skip_errors = false` the first normalization-domain failure
aborts the whole batch; with `skip_errors = true` domain failures are
recorded as `(file, cause)` pairs while processing continues and failed
files contribute nothing; non-domain failures propagate regardless of
`skip_errors`. -/
theorem skip_errors_spec :
    (∀ (pre : List (String × FileOutcome)) (path msg : String)
      (rest : List (String × FileOutcome)),
      (∀ x ∈ pre, ∃ r, x.2 = FileOutcome.parsed r) →
      processFiles (pre ++ (path, .domainError msg) :: rest) false =
        .error (.domain msg)) ∧
    (∀ files : List (String × FileOutcome),
      (∀ x ∈ files, ∀ m, x.2 ≠ FileOutcome.fatalError m) →
      processFiles files true = .ok (successes files, domainFailures files)) ∧
    (∀ (pre : List (String × FileOutcome)) (path msg : String)
      (rest : List (String × FileOutcome)) (skip : Bool),
      (∀ x ∈ pre, ∃ r, x.2 = FileOutcome.parsed r) →
      processFiles (pre ++ (path, .fatalError msg) :: rest) skip =
        .error (.fatal msg)) :=
  ⟨fun pre path msg rest h => processFiles_failfast path msg rest pre h,
   fun files h => processFiles_skip files h,
   fun pre path msg rest skip h => processFiles_fatal path msg rest skip pre h⟩

/-- Witness for C8: a concrete batch for each of the three modes —
fail-fast abort, skip-and-record, and fatal propagation. -/
theorem skip_errors_spec_witness :
    processFiles [("a.xml", .parsed { name := "a" }),
      ("b.xml", .domainError "broken")] false = .error (.domain "broken") ∧
    processFiles [("a.xml", .parsed { name := "a" }),
      ("b.xml", .domainError "broken"), ("c.xml", .parsed { name := "c" })] true =
      .ok ([normalizeRecipe { name := "a" }, normalizeRecipe { name := "c" }],
        [("b.xml", "broken")]) ∧
    processFiles [("a.xml", .parsed { name := "a" }),
      ("b.xml", .fatalError "oom")] true = .error (.fatal "oom") :=
  ⟨skip_errors_spec.1 [("a.xml", .parsed { name := "a" })] "b.xml" "broken" []
      (by rintro x hx; rw [List.mem_singleton] at hx; subst hx; exact ⟨_, rfl⟩),
   skip_errors_spec.2.1 _ (by intro x hx m; fin_cases hx <;> simp),
   skip_errors_spec.2.2 [("a.xml", .parsed { name := "a" })] "b.xml" "oom" [] true
      (by rintro x hx; rw [List.mem_singleton] at hx; subst hx; exact ⟨_, rfl⟩)⟩

/-- C9: normalization returns a new `Recipe` with the same name and
preparations, whose ingredient list has the same length and holds, at
every index, exactly the element-wise normalization of the original
ingredient — conversion never reorders; the original recipe is a value and
is left untouched. -/
theorem normalize_recipe_spec (r : Recipe) :
    (normalizeRecipe r).name = r.name ∧
    (normalizeRecipe r).preparations = r.preparations ∧
    (normalizeRecipe r).ingredients.length = r.ingredients.length ∧
    ∀ i : ℕ, (normalizeRecipe r).ingredients[i]? =
      (r.ingredients[i]?).map normalizeIngredient :=
  ⟨rfl, rfl, by simp [normalizeRecipe],
   fun i => by simp [normalizeRecipe, List.getElem?_map]⟩

/-- C10: an ingredient whose quantity is absent is returned completely
unchanged — no conversion, unit-name normalization or rounding happens
even when a unit string is present. -/
theorem normalize_ingredient_none (ing : Ingredient)
    (h : ing.quantity = none) : normalizeIngredient ing = ing := by
  simp only [normalizeIngredient, h]

/-- Witness for C10: a unit-bearing, quantity-less ingredient (unit
`"cup"`) is untouched — the unit stays `"cup"`, not `"ml"`. -/
theorem normalize_ingredient_none_witness :
    normalizeIngredient { item := "flour", unit := some "cup" } =
      { item := "flour", unit := some "cup" } :=
  normalize_ingredient_none _ rfl

end RecipeNormalizer
